import Mathlib

set_option maxHeartbeats 1000000

/-!
Shallow embedding of the query-intent resolution and result-aggregation
pipeline of `backend/intelligent_ai_engine.py` together with the remote
search client of `backend/jira_client.py`.

Conventions of the embedding:
* Python dictionaries read through chained `.get(..., default)` calls are
  modelled with `Option`; a two-level access such as
  `fields.get('assignee', {}).get('displayName', 'Unassigned') if
  fields.get('assignee') else 'Unassigned'` becomes an
  `Option (Option String)` (outer level: the nested object is present and
  truthy, inner level: the name key is present).
* The remote search endpoint is a pure function from
  `(maxResults, startAt)` to a parsed response; a search that may raise an
  exception returns `Except String SearchResp` with the exception message
  in the `error` case.  `jira_client.JiraClient.search` always parses to
  the dict shape `{issues, total}` (it returns `{"issues": [], "total": 0}`
  on every failure), so the list-shaped branch of `_execute_jql` is
  unreachable in the composed system and is not modelled.
* Requests actually issued to the remote are logged as `(maxResults,
  startAt)` pairs so that the pagination claims can talk about how many
  requests were made and at which offsets.
-/

/-- Python's substring test `pat in s` (used throughout the engine for
keyword and mode detection): `true` iff `pat` occurs contiguously in `s`. -/
def containsSub (s pat : String) : Bool :=
  (List.range (s.data.length + 1)).any fun i => pat.data.isPrefixOf (s.data.drop i)

/-- Python's `str.lower()` over the ASCII inputs the engine receives:
lower-case each character. -/
def lowerStr (s : String) : String :=
  ⟨s.data.map Char.toLower⟩

/-- The nested `fields` object of a Jira issue, restricted to the members the
specified core reads (`summary`, `status`, `assignee`, `reporter`). -/
structure Fields where
  summary : Option String
  status : Option (Option String)
  assignee : Option (Option String)
  reporter : Option (Option String)
deriving DecidableEq

/-- One tracker item as returned by the remote search endpoint:
`{key, fields}`. -/
structure Issue where
  key : Option String
  fields : Option Fields
deriving DecidableEq

/-- The dict-shaped remote response `{issues, total}` produced by
`JiraClient.search`. -/
structure SearchResp where
  issues : List Issue
  total : Nat
deriving DecidableEq

/-- A pure remote search endpoint: `(maxResults, startAt) ↦ response`. -/
abbrev SearchFn := Nat → Nat → SearchResp

/-- A search call that may raise: the `error` case carries the exception
message `str(e)`. -/
abbrev SearchFnE := Nat → Nat → Except String SearchResp

/-- View a never-raising search function as a raising one. -/
def okSearch (search : SearchFn) : SearchFnE := fun m s => .ok (search m s)

/-- The transport layer under `JiraClient.search`: an HTTP GET that either
raises (network failure, `error msg`) or yields a status code and a parsed
body. -/
abbrev Transport := Nat → Nat → Except String (Nat × SearchResp)

/-- `JiraClient.search` (jira_client.py lines 52-89): on a 200 response the
parsed body is returned; on any non-200 status and on any exception the
call logs and returns `{"issues": [], "total": 0}`.  In particular this
function never raises. -/
def jiraSearch (transport : Transport) : SearchFn := fun maxResults startAt =>
  match transport maxResults startAt with
  | .ok (status, data) => if status = 200 then data else ⟨[], 0⟩
  | .error _ => ⟨[], 0⟩

/-- The count-only mode test of `_execute_jql` (lines 453-460): intent is one
of `count_items`, `story_count`, `issue_count`, or the lower-cased JQL text
contains `"count"` or `"group by"`. -/
def isCountOnlyQuery (jql : String) (queryIntent : Option String) : Bool :=
  queryIntent = some "count_items" || queryIntent = some "story_count" ||
  queryIntent = some "issue_count" || containsSub (lowerStr jql) "count" ||
  containsSub (lowerStr jql) "group by"

/-- The defensive record filter of `_execute_jql` (lines 543-554): drop an
issue whose key defaults to `'UNKNOWN'` and whose summary is empty. -/
def keepIssue (it : Issue) : Bool :=
  let key := it.key.getD "UNKNOWN"
  let summary := match it.fields with
    | none => ""
    | some f => f.summary.getD ""
  !(key = "UNKNOWN" && summary = "")

/-- The dictionary returned by `_execute_jql`:
`{results, total_count, retrieved_count, is_count_only, error?}`. -/
structure FetchResult where
  results : List Issue
  total_count : Nat
  retrieved_count : Nat
  is_count_only : Bool
  error : Option String
deriving DecidableEq

/-- The full-fetch pagination loop of `_execute_jql` (lines 496-538): request
pages of size 100 at offsets `startAt, startAt+100, ...`; `T` is the
server-declared total taken from the first page (`total_count_from_api`),
which the source fixes before any further iteration and which bounds the
loop; stop on an empty page, and otherwise stop after accumulating the page
unless `startAt + page.length < T` and the page has at least 100 records.
Each request actually issued is appended to `reqs`; a raising search call
aborts the loop with the exception, as in the source's `try` block. -/
def fetchLoop (searchE : SearchFnE) (T startAt : Nat) (acc : List Issue)
    (reqs : List (Nat × Nat)) : List (Nat × Nat) × Except String (List Issue) :=
  match searchE 100 startAt with
  | .error e => (reqs ++ [(100, startAt)], .error e)
  | .ok resp =>
    if resp.issues.isEmpty then
      (reqs ++ [(100, startAt)], .ok acc)
    else if h : startAt + resp.issues.length < T ∧ 100 ≤ resp.issues.length then
      fetchLoop searchE T (startAt + 100) (acc ++ resp.issues)
        (reqs ++ [(100, startAt)])
    else
      (reqs ++ [(100, startAt)], .ok (acc ++ resp.issues))
termination_by T - startAt
decreasing_by omega

/-- The first page's declared total (`total_count_from_api` after the loop's
first iteration): `searchE` is pure, so reading it up front coincides with
the value the source assigns on the first iteration, and it bounds the
recursion of the pagination loop. -/
def firstPageTotal (searchE : SearchFnE) : Nat :=
  match searchE 100 0 with
  | .ok resp => resp.total
  | .error _ => 0

/-- `_execute_jql` (lines 446-575).  Count-only mode issues a single request
with `maxResults = 0` and reads back only the declared total.  Full-fetch
mode runs the pagination loop, filters the accumulated issues, and returns
`total_count_from_api or len(filtered_results)` as the total (the Python
`or` replaces a falsy `0` total with the retrieved length).  Any exception
raised by a search call is caught and converted to a zero-result dictionary
carrying the message (lines 567-575).  The first component is the returned
dictionary, the second the log of issued requests. -/
def execute_jql (searchE : SearchFnE) (jql : String) (queryIntent : Option String) :
    FetchResult × List (Nat × Nat) :=
  if isCountOnlyQuery jql queryIntent then
    match searchE 0 0 with
    | .error e => (⟨[], 0, 0, false, some e⟩, [(0, 0)])
    | .ok resp => (⟨[], resp.total, 0, true, none⟩, [(0, 0)])
  else
    match fetchLoop searchE (firstPageTotal searchE) 0 [] [] with
    | (reqs, .error e) => (⟨[], 0, 0, false, some e⟩, reqs)
    | (reqs, .ok allIssues) =>
      let filtered := allIssues.filter keepIssue
      (⟨filtered,
        if firstPageTotal searchE = 0 then filtered.length
        else firstPageTotal searchE,
        filtered.length, false, none⟩, reqs)

/-- The page an okSearch-style remote returns for request index `i`
(offset `100 * i`). -/
def pages (search : SearchFn) (i : Nat) : List Issue :=
  (search 100 (100 * i)).issues

/-- The continuation condition of the pagination loop at request index `i`
against first-page total `T`: the page is non-empty, has at least the
requested 100 records, and `offset + records received` has not reached
`T`. -/
def continuesAt (search : SearchFn) (T i : Nat) : Prop :=
  pages search i ≠ [] ∧ 100 ≤ (pages search i).length ∧
    100 * i + (pages search i).length < T

instance (search : SearchFn) (T i : Nat) : Decidable (continuesAt search T i) := by
  unfold continuesAt
  exact inferInstance

/-! ### Routing (process_query, lines 62-145) -/

/-- `confluence_keywords` (line 76). -/
def confluence_keywords : List String :=
  ["confluence", "documentation", "wiki", "page", "article", "knowledge base",
   "doc", "guide", "manual", "tutorial"]

/-- `jira_keywords` (line 77). -/
def jira_keywords : List String :=
  ["issue", "bug", "task", "story", "epic", "sprint", "ticket", "jira",
   "assignee", "reporter", "status", "priority"]

/-- `confluence_priority_keywords` (line 84): presence of any always triggers
a Confluence-first search. -/
def confluence_priority_keywords : List String :=
  ["confluence", "wiki", "document", "insurance", "eligibility",
   "entertainment", "partners", "lab", "results", "emr", "careexpand"]

/-- `confluence_check_phrases` (lines 87-91). -/
def confluence_check_phrases : List String :=
  ["check in confluence", "check confluence", "look in confluence",
   "search confluence", "check wiki", "look in wiki", "search wiki",
   "check documentation", "look in documentation", "search documentation",
   "check docs", "look in docs", "search docs"]

/-- `document_terms` (line 97). -/
def document_terms : List String :=
  ["results", "report", "analysis", "findings", "study", "research", "data",
   "information", "content"]

/-- `confluence_patterns` (lines 101-105). -/
def confluence_patterns : List String :=
  ["view lab results", "lab results", "test results", "analysis results",
   "project overview", "documentation", "how to", "getting started",
   "user guide", "api documentation", "technical specs"]

/-- `has_confluence_priority` (line 93): some priority keyword occurs in the
lower-cased utterance. -/
def hasConfluencePriority (q : String) : Bool :=
  confluence_priority_keywords.any fun kw => containsSub (lowerStr q) kw

/-- `should_search_confluence_first` (lines 111-117), evaluated on the
lower-cased utterance exactly in the source's rule order. -/
def should_search_confluence_first (q : String) : Bool :=
  let ql := lowerStr q
  let is_confluence_query := confluence_keywords.any fun kw => containsSub ql kw
  let is_jira_query := jira_keywords.any fun kw => containsSub ql kw
  let has_confluence_priority := confluence_priority_keywords.any fun kw => containsSub ql kw
  let has_confluence_check := confluence_check_phrases.any fun p => containsSub ql p
  let has_document_terms := document_terms.any fun t => containsSub ql t
  let has_confluence_pattern := confluence_patterns.any fun p => containsSub ql p
  has_confluence_priority || has_confluence_check || is_confluence_query ||
    (has_confluence_pattern && !is_jira_query) ||
    (has_document_terms && !is_jira_query && !ql.contains '=' && !ql.contains '-')

/-- The three top-level branches of `process_query`: line 72-73 (no OpenAI
client: deterministic Jira fallback), line 130 (Confluence-first search),
line 203 (main Jira path). -/
inductive ProcessPath where
  | fallback_no_client
  | confluence_first
  | jira_main
deriving DecidableEq

/-- Which branch `process_query` takes, as a function of whether the OpenAI
client is configured (lines 36-45: a missing or placeholder key leaves
`self.client = None`), whether the Confluence client is configured, and the
utterance (lines 72-73 and 130). -/
def process_query_path (clientConfigured confluenceConfigured : Bool)
    (q : String) : ProcessPath :=
  if !clientConfigured then .fallback_no_client
  else if should_search_confluence_first q && confluenceConfigured then
    .confluence_first
  else .jira_main

/-! ### Conversation context (add_context, lines 47-60; readback, line 309) -/

/-- One entry of `self.conversation_context`. -/
structure ConversationTurn where
  user_query : String
  jql : String
  result_count : Nat
  response : String
deriving DecidableEq

/-- `add_context` (lines 47-60): append the new turn, then `pop(0)` once if
the length exceeds 10. -/
def add_context (ctx : List ConversationTurn) (t : ConversationTurn) :
    List ConversationTurn :=
  let grown := ctx ++ [t]
  if 10 < grown.length then grown.drop 1 else grown

/-- The readback `self.conversation_context[-n:]` (line 309 uses `n = 3`):
the last `n` turns in chronological order. -/
def recentTurns (n : Nat) (ctx : List ConversationTurn) : List ConversationTurn :=
  ctx.drop (ctx.length - n)

/-! ### Deterministic QueryBuilder fallback (lines 419-444 and 812-873) -/

/-- A regex word character (`\w` over the ASCII inputs the engine handles):
letter, digit or underscore. -/
def isWordChar (c : Char) : Bool :=
  c.isAlphanum || c = '_'

/-- Attempt the body of `\b([A-Z]{2,}-\d+)\b` (with `re.IGNORECASE`) at the
head of `l`: a maximal run of at least two ASCII letters, a hyphen, a
maximal run of at least one digit, and then a word boundary.  The greedy
runs need no backtracking: a shorter letter run is followed by a letter
(never `-`) and a shorter digit run is followed by a digit (never a
boundary). -/
def matchKeyAt (l : List Char) : Option (List Char) :=
  let letters := l.takeWhile Char.isAlpha
  if 2 ≤ letters.length then
    match l.drop letters.length with
    | '-' :: rest =>
      let digits := rest.takeWhile Char.isDigit
      if 1 ≤ digits.length then
        match rest.drop digits.length with
        | [] => some (letters ++ '-' :: digits)
        | c :: _ => if isWordChar c then none else some (letters ++ '-' :: digits)
      else none
    | _ => none
  else none

/-- Scan for the leftmost match of the ticket-key regex, tracking the
previous character so the leading `\b` can be checked: a candidate start is
a letter preceded by nothing or by a non-word character. -/
def findKeyAux : Option Char → List Char → Option (List Char)
  | _, [] => none
  | prev, c :: rest =>
    let boundaryOk := match prev with
      | none => true
      | some p => !isWordChar p
    if boundaryOk && c.isAlpha then
      match matchKeyAt (c :: rest) with
      | some k => some k
      | none => findKeyAux (some c) rest
    else findKeyAux (some c) rest

/-- `re.search(r'\b([A-Z]{2,}-\d+)\b', user_query, re.IGNORECASE)` followed
by `.group(1)` (lines 426-428 and 814-816): the leftmost ticket-key match,
returned exactly as it appears in the utterance. -/
def findIssueKey (q : String) : Option String :=
  (findKeyAux none q.data).map fun chars => ⟨chars⟩

/-- The analysis dictionary produced by the deterministic fallback of
`_analyze_query` (its `entities` member is omitted: no claim reads it). -/
structure QueryAnalysis where
  intent : String
  jql : String
  response_type : String
deriving DecidableEq

/-- The deterministic fallback branch of `_analyze_query` (lines 419-444):
a detected issue key yields `issue = "<key>"` verbatim with intent
`issue_details` and no ordering clause; otherwise a project-scoped listing
query ordered by update time. -/
def analyze_query_fallback (q : String) (projectKeys : List String) :
    QueryAnalysis :=
  match findIssueKey q with
  | some key =>
    { intent := "issue_details", jql := "issue = \"" ++ key ++ "\"",
      response_type := "list" }
  | none =>
    { intent := "general_query",
      jql := "project in (" ++ String.intercalate ", " projectKeys ++
        ") ORDER BY updated DESC",
      response_type := "list" }

/-! ### Result aggregation (_create_detailed_analysis, lines 971-1105) -/

/-- The assignee display name of an issue (line 1004):
`fields.get('assignee', {}).get('displayName', 'Unassigned') if
fields.get('assignee') else 'Unassigned'`. -/
def assigneeOf (it : Issue) : String :=
  match it.fields with
  | none => "Unassigned"
  | some f =>
    match f.assignee with
    | none => "Unassigned"
    | some d => d.getD "Unassigned"

/-- One `dict[name] = dict.get(name, 0) + 1` step on an insertion-ordered
association list (lines 1027-1029). -/
def bumpCount (m : List (String × Nat)) (k : String) : List (String × Nat) :=
  match m with
  | [] => [(k, 1)]
  | (k', v) :: rest =>
    if k' = k then (k', v + 1) :: rest else (k', v) :: bumpCount rest k

/-- `analysis['by_assignee']` after the extraction loop: one increment per
record under its extracted assignee name. -/
def byAssignee (results : List Issue) : List (String × Nat) :=
  results.foldl (fun m it => bumpCount m (assigneeOf it)) []

/-- Dictionary lookup with default 0. -/
def lookupCount (m : List (String × Nat)) (k : String) : Nat :=
  match m with
  | [] => 0
  | (k', v) :: rest => if k' = k then v else lookupCount rest k

/-- The complete-dataset headline (line 1103). -/
def completeHeader (total : Nat) : String :=
  "Found " ++ toString total ++ " total items (complete dataset analyzed):"

/-- The truncated-dataset headline (line 1105). -/
def truncatedHeader (retrieved total : Nat) : String :=
  "Showing segregations for " ++ toString retrieved ++ " issues (out of " ++
    toString total ++ " total)."

/-- The count-reporting headline of `_create_detailed_analysis` (lines
976-978 and 1101-1105): `actual_total`/`actual_retrieved` default to the
number of records, and the complete-dataset form is used exactly when they
agree. -/
def countHeader (resultsLen : Nat) (total_count retrieved_count : Option Nat) :
    String :=
  let actual_total := total_count.getD resultsLen
  let actual_retrieved := retrieved_count.getD resultsLen
  if actual_total = actual_retrieved then completeHeader actual_total
  else truncatedHeader actual_retrieved actual_total

/-! ### Comparison summary (_fallback_comparison_response, lines 1256-1304)
and the comparison batch loop (process_query, lines 208-259) -/

/-- One `(entity, count)` pair extracted from a comparison result set
(lines 1262-1266). -/
structure EntityCount where
  entity : String
  count : Nat
deriving DecidableEq

/-- Stable insertion into a list sorted by count descending: the new element
goes in front of the first element whose count does not exceed it, so
original order is kept among equal counts, as with Python's stable
`list.sort(key=..., reverse=True)`. -/
def insertByCountDesc (x : EntityCount) : List EntityCount → List EntityCount
  | [] => [x]
  | y :: ys => if y.count ≤ x.count then x :: y :: ys else y :: insertByCountDesc x ys

/-- `entities_data.sort(key=lambda x: x[1], reverse=True)` (line 1269). -/
def sortByCountDesc (l : List EntityCount) : List EntityCount :=
  l.foldr insertByCountDesc []

/-- The winner/tie determination of lines 1279-1288. -/
inductive ComparisonVerdict where
  | winner (entity : String) (count margin : Nat) (runnerUp : String)
  | tie (e1 e2 : String) (count : Nat)
deriving DecidableEq

/-- Lines 1279-1288: with at least two (sorted) entities, a strictly greater
leading count names a winner and the margin over the runner-up, an equal
pair of leading counts is a tie. -/
def comparisonVerdict (sorted : List EntityCount) : Option ComparisonVerdict :=
  match sorted with
  | e1 :: e2 :: _ =>
    if e2.count < e1.count then
      some (.winner e1.entity e1.count (e1.count - e2.count) e2.entity)
    else if e1.count = e2.count then some (.tie e1.entity e2.entity e1.count)
    else none
  | _ => none

/-- Lines 1293-1298: the percentage share `(count / total) * 100` of each
(sorted) entity, emitted only when the combined total is non-zero. -/
def comparisonShares (sorted : List EntityCount) : List (String × ℚ) :=
  let total := (sorted.map EntityCount.count).sum
  if 0 < total then
    sorted.map fun ec => (ec.entity, ((ec.count : ℚ) / (total : ℚ)) * 100)
  else []

/-- The content of the fallback comparison response: the ranked entity list,
the winner/tie verdict, and the percentage shares. -/
structure ComparisonSummary where
  ranked : List EntityCount
  verdict : Option ComparisonVerdict
  shares : List (String × ℚ)

/-- `_fallback_comparison_response` (lines 1256-1304), keeping the numeric
content of the assembled text. -/
def fallback_comparison (all_results : List EntityCount) : ComparisonSummary :=
  let sorted := sortByCountDesc all_results
  { ranked := sorted, verdict := comparisonVerdict sorted,
    shares := comparisonShares sorted }

/-- One element of `all_results` built by the comparison loop of
`process_query` (lines 213-240). -/
structure EntityEntry where
  entity : String
  jql : String
  results : List Issue
  count : Nat
  retrieved_count : Nat
  error : Option String
deriving DecidableEq

/-- The comparison batch loop of `process_query` (lines 213-240): each JQL
string is executed independently (`searches i` is the search function
serving entity `i`; the entity label comes from
`entities.get(f"entity{i+1}", ...)`, abstracted as `entityNames`).  The
success branch copies `results`, `total_count` and `retrieved_count` from
the returned dictionary and sets no `error`; the `except` branch (lines
231-240) is unreachable because `_execute_jql` catches every exception
internally and returns a dictionary instead of raising. -/
def comparison_batch (searches : Nat → SearchFnE) (jqls : List String)
    (entityNames : Nat → String) (queryIntent : Option String) :
    List EntityEntry :=
  jqls.enum.map fun p =>
    let r := (execute_jql (searches p.1) p.2 queryIntent).1
    { entity := entityNames p.1, jql := p.2, results := r.results,
      count := r.total_count, retrieved_count := r.retrieved_count,
      error := none }

/-! ### Concrete remotes used by the witnesses and counterexamples -/

/-- A well-formed record (its key is present, so the defensive filter keeps
it). -/
def recA : Issue :=
  { key := some "CCM-1",
    fields := some { summary := some "Fix pagination", status := some (some "To Do"),
                     assignee := some (some "Alice"), reporter := some (some "Bob") } }

/-- A remote holding 237 matching records served as pages of 100, 100 and 37
with declared total 237. -/
def mock237 : SearchFn := fun _ startAt =>
  if startAt = 0 then ⟨List.replicate 100 recA, 237⟩
  else if startAt = 100 then ⟨List.replicate 100 recA, 237⟩
  else if startAt = 200 then ⟨List.replicate 37 recA, 237⟩
  else ⟨[], 237⟩

/-- A degenerate remote that declares total 0 yet returns one record on the
first page. -/
def mockZero : SearchFn := fun _ startAt =>
  if startAt = 0 then ⟨[recA], 0⟩ else ⟨[], 0⟩

/-- A transport on which every request raises. -/
def failTransport : Transport := fun _ _ => .error "connection refused"

/-- A remote holding two matching records with declared total 2. -/
def goodSearch : SearchFn := fun _ startAt =>
  if startAt = 0 then ⟨[recA, recA], 2⟩ else ⟨[], 2⟩

/-- A record assigned to Alice. -/
def issueAlice1 : Issue :=
  ⟨some "CCM-10", some ⟨some "Tune cache", some (some "To Do"),
    some (some "Alice"), some (some "Carol")⟩⟩

/-- A second record assigned to Alice. -/
def issueAlice2 : Issue :=
  ⟨some "CCM-11", some ⟨some "Fix login", some (some "Done"),
    some (some "Alice"), some (some "Carol")⟩⟩

/-- A record assigned to Bob. -/
def issueBob : Issue :=
  ⟨some "CCM-12", some ⟨some "Add export", some (some "To Do"),
    some (some "Bob"), some (some "Carol")⟩⟩

/-- A record with no assignee object at all. -/
def issueNoAssignee : Issue :=
  ⟨some "CCM-13", some ⟨some "Polish docs", some (some "To Do"),
    none, some (some "Carol")⟩⟩

/-- A two-entity comparison batch in which entity 0's search transport is
down and entity 1's remote serves `goodSearch`. -/
def batchSearches : Nat → SearchFnE := fun i =>
  if i = 0 then okSearch (jiraSearch failTransport) else okSearch goodSearch

/-- Entity labels of the two-entity batch. -/
def batchNames : Nat → String := fun i =>
  if i = 0 then "Ashwin" else "Saravanan"

/-- The two JQL strings of the two-entity batch. -/
def batchJqls : List String :=
  ["assignee = \"Ashwin\"", "assignee = \"Saravanan\""]

/-! ### Characterization of the pagination loop -/

/-- If the continuation condition fails at request index `j`, the loop issues
exactly the request at offset `100 * j` and stops, returning the page
accumulated so far plus that page (an empty page contributes nothing). -/
theorem fetchLoop_stop (search : SearchFn) (T j : Nat) (acc : List Issue)
    (reqs : List (Nat × Nat)) (hstop : ¬ continuesAt search T j) :
    fetchLoop (okSearch search) T (100 * j) acc reqs =
      (reqs ++ [(100, 100 * j)], Except.ok (acc ++ pages search j)) := by
  unfold continuesAt at hstop
  rw [fetchLoop.eq_def]
  simp only [okSearch]
  cases hi : (search 100 (100 * j)).issues with
  | nil => simp [pages, hi]
  | cons a as =>
    rw [pages, hi] at hstop
    simp only [List.length_cons] at hstop
    simp [pages, hi]
    intro h1 h2
    exact absurd ⟨List.cons_ne_nil a as, by omega, h1⟩ hstop

/-- If the continuation condition holds at request index `j`, the loop issues
the request at offset `100 * j`, accumulates the page, and proceeds to
request index `j + 1`. -/
theorem fetchLoop_continue (search : SearchFn) (T j : Nat) (acc : List Issue)
    (reqs : List (Nat × Nat)) (hcont : continuesAt search T j) :
    fetchLoop (okSearch search) T (100 * j) acc reqs =
      fetchLoop (okSearch search) T (100 * (j + 1)) (acc ++ pages search j)
        (reqs ++ [(100, 100 * j)]) := by
  obtain ⟨hne, hlen, hlt⟩ := hcont
  rw [pages] at hne hlen hlt
  rw [fetchLoop.eq_def]
  simp only [okSearch]
  rw [pages]
  cases hi : (search 100 (100 * j)).issues with
  | nil => exact absurd hi hne
  | cons a as =>
    rw [hi] at hlen hlt
    have harith : 100 * (j + 1) = 100 * j + 100 := by omega
    rw [harith]
    simp only [List.isEmpty_cons, Bool.false_eq_true, if_false]
    rw [dif_pos ⟨hlt, hlen⟩]

/-- The loop stopped by `fetchLoop_stop`, phrased as the `k = j + 1` case of
the general characterization. -/
theorem fetchLoop_spec_of_stop (search : SearchFn) (T j : Nat) (acc : List Issue)
    (reqs : List (Nat × Nat)) (hstop : ¬ continuesAt search T j) :
    ∃ k, j < k ∧
      fetchLoop (okSearch search) T (100 * j) acc reqs =
        (reqs ++ (List.range' j (k - j)).map (fun i => (100, 100 * i)),
         Except.ok (acc ++ ((List.range' j (k - j)).map (pages search)).flatten)) ∧
      (∀ i, j ≤ i → i + 1 < k → continuesAt search T i) ∧
      ¬ continuesAt search T (k - 1) := by
  refine ⟨j + 1, Nat.lt_succ_self j, ?_, ?_, ?_⟩
  · rw [fetchLoop_stop search T j acc reqs hstop]
    simp [Nat.add_sub_cancel_left, List.range'_one]
  · intro i hji hik
    exact absurd (Nat.lt_of_succ_lt_succ hik) (Nat.not_lt.mpr hji)
  · simpa using hstop

/-- Full characterization of the pagination loop over a never-raising remote:
starting at request index `j`, there is a request count `k` such that the
loop issues exactly the page-size-100 requests at offsets
`100*j, ..., 100*(k-1)`, accumulates exactly those pages in order, the
continuation condition holds at every index before the last request, and
fails at the last request. -/
theorem fetchLoop_spec (search : SearchFn) (T : Nat) :
    ∀ (n j : Nat) (acc : List Issue) (reqs : List (Nat × Nat)),
      T - 100 * j ≤ n →
      ∃ k, j < k ∧
        fetchLoop (okSearch search) T (100 * j) acc reqs =
          (reqs ++ (List.range' j (k - j)).map (fun i => (100, 100 * i)),
           Except.ok (acc ++ ((List.range' j (k - j)).map (pages search)).flatten)) ∧
        (∀ i, j ≤ i → i + 1 < k → continuesAt search T i) ∧
        ¬ continuesAt search T (k - 1) := by
  intro n
  induction n with
  | zero =>
    intro j acc reqs hn
    apply fetchLoop_spec_of_stop
    intro hc
    have := hc.2.2
    omega
  | succ n ih =>
    intro j acc reqs hn
    by_cases hc : continuesAt search T j
    · have hbound : T - 100 * (j + 1) ≤ n := by
        have h1 := hc.2.1
        have h2 := hc.2.2
        omega
      obtain ⟨k, hk, heq, hcontAll, hstop⟩ :=
        ih (j + 1) (acc ++ pages search j) (reqs ++ [(100, 100 * j)]) hbound
      refine ⟨k, by omega, ?_, ?_, hstop⟩
      · rw [fetchLoop_continue search T j acc reqs hc, heq]
        have hkj : k - j = (k - (j + 1)) + 1 := by omega
        rw [hkj, List.range'_succ]
        simp [List.append_assoc]
      · intro i hji hik
        rcases Nat.eq_or_lt_of_le hji with h | hlt
        · exact h ▸ hc
        · exact hcontAll i hlt hik
    · exact fetchLoop_spec_of_stop search T j acc reqs hc

/-- Over a never-raising remote, `firstPageTotal` is the declared total of the
page at offset 0. -/
theorem firstPageTotal_okSearch (search : SearchFn) :
    firstPageTotal (okSearch search) = (search 100 0).total := rfl

/-- Full-fetch characterization of `execute_jql` over a never-raising remote:
there is a request count `k ≥ 1` such that exactly the page-size-100
requests at offsets `0, 100, ..., 100*(k-1)` are issued, the returned
records are the concatenation of those pages passed through the defensive
filter, `retrieved_count` is their number, the continuation condition of
the loop holds before the last request and fails at it, and the reported
total is the first page's declared total unless that total is 0, in which
case the Python `or` replaces it by the retained record count. -/
theorem execute_full_spec (search : SearchFn) (jql : String)
    (queryIntent : Option String)
    (hmode : isCountOnlyQuery jql queryIntent = false) :
    ∃ k, 1 ≤ k ∧
      (∀ i, i + 1 < k → continuesAt search (search 100 0).total i) ∧
      ¬ continuesAt search (search 100 0).total (k - 1) ∧
      execute_jql (okSearch search) jql queryIntent =
        (⟨(((List.range k).map (pages search)).flatten).filter keepIssue,
          (if (search 100 0).total = 0
           then ((((List.range k).map (pages search)).flatten).filter keepIssue).length
           else (search 100 0).total),
          ((((List.range k).map (pages search)).flatten).filter keepIssue).length,
          false, none⟩,
         (List.range k).map fun i => (100, 100 * i)) := by
  obtain ⟨k, hk, heq, hcontAll, hstop⟩ :=
    fetchLoop_spec search ((search 100 0).total) ((search 100 0).total) 0 [] []
      (by omega)
  simp only [Nat.mul_zero, Nat.sub_zero, List.nil_append,
    ← List.range_eq_range'] at heq
  refine ⟨k, hk, fun i h => hcontAll i (Nat.zero_le i) h, by simpa using hstop, ?_⟩
  unfold execute_jql
  rw [if_neg (by simp [hmode])]
  rw [firstPageTotal_okSearch, heq]

/-- Deterministic version of `execute_full_spec` for a request count `k`
verified by the caller: the loop's stopping index is unique, so verifying
the continuation condition below `k` and its failure at `k - 1` pins the
whole result of `execute_jql`. -/
theorem execute_full_eval (search : SearchFn) (jql : String)
    (queryIntent : Option String) (k : Nat)
    (hmode : isCountOnlyQuery jql queryIntent = false) (hk : 1 ≤ k)
    (hcont : ∀ i, i + 1 < k → continuesAt search (search 100 0).total i)
    (hstop : ¬ continuesAt search (search 100 0).total (k - 1)) :
    execute_jql (okSearch search) jql queryIntent =
      (⟨(((List.range k).map (pages search)).flatten).filter keepIssue,
        (if (search 100 0).total = 0
         then ((((List.range k).map (pages search)).flatten).filter keepIssue).length
         else (search 100 0).total),
        ((((List.range k).map (pages search)).flatten).filter keepIssue).length,
        false, none⟩,
       (List.range k).map fun i => (100, 100 * i)) := by
  obtain ⟨k', hk', hcont', hstop', heq⟩ :=
    execute_full_spec search jql queryIntent hmode
  have hkk : k' = k := by
    by_contra hne
    rcases Nat.lt_or_ge k' k with hlt | hge
    · exact hstop' (hcont (k' - 1) (by omega))
    · exact hstop (hcont' (k - 1) (by omega))
  subst hkk
  exact heq

/-- Count-only evaluation of `execute_jql` over a never-raising remote: one
request with `maxResults = 0`, empty records, zero retrieved count, the
count-only flag set, and the server-declared total passed through. -/
theorem execute_count_only_eval (search : SearchFn) (jql : String)
    (queryIntent : Option String)
    (hmode : isCountOnlyQuery jql queryIntent = true) :
    execute_jql (okSearch search) jql queryIntent =
      (⟨[], (search 0 0).total, 0, true, none⟩, [(0, 0)]) := by
  unfold execute_jql
  rw [if_pos (by simp [hmode])]
  rfl

/-- A transport on which every request raises turns `JiraClient.search` into
the constant empty response. -/
theorem jiraSearch_allFail (transport : Transport)
    (hfail : ∀ m s, ∃ e, transport m s = .error e) :
    ∀ m s, jiraSearch transport m s = ⟨[], 0⟩ := by
  intro m s
  obtain ⟨e, he⟩ := hfail m s
  simp [jiraSearch, he]

/-- With `JiraClient.search` absorbing a totally failing transport,
`_execute_jql` returns empty records, zero totals, zero retrieved count and
carries no error message, in either mode. -/
theorem execute_jql_transport_down (transport : Transport) (jql : String)
    (queryIntent : Option String)
    (hfail : ∀ m s, ∃ e, transport m s = .error e) :
    (execute_jql (okSearch (jiraSearch transport)) jql queryIntent).1.results = [] ∧
    (execute_jql (okSearch (jiraSearch transport)) jql queryIntent).1.total_count = 0 ∧
    (execute_jql (okSearch (jiraSearch transport)) jql queryIntent).1.retrieved_count = 0 ∧
    (execute_jql (okSearch (jiraSearch transport)) jql queryIntent).1.error = none := by
  have hresp := jiraSearch_allFail transport hfail
  by_cases hmode : isCountOnlyQuery jql queryIntent
  · rw [execute_count_only_eval (jiraSearch transport) jql queryIntent hmode]
    simp [hresp 0 0]
  · rw [execute_full_eval (jiraSearch transport) jql queryIntent 1
      (by simpa using hmode) (by omega) (by omega)
      (by intro hc; exact hc.1 (by simp [pages, hresp]))]
    have h1 : List.range 1 = [0] := rfl
    simp [h1, Function.comp, pages, hresp]

/-- A search call that raises is converted by the `try/except` of
`_execute_jql` (lines 567-575) into a zero-result dictionary carrying the
exception message, in either mode. -/
theorem execute_jql_raising (e : String) (jql : String)
    (queryIntent : Option String) :
    (execute_jql (fun _ _ => .error e) jql queryIntent).1 =
      ⟨[], 0, 0, false, some e⟩ := by
  by_cases hmode : isCountOnlyQuery jql queryIntent
  · unfold execute_jql
    rw [if_pos (by simp [hmode])]
  · unfold execute_jql
    rw [if_neg (by simp [hmode])]
    rw [fetchLoop.eq_def]

/-! ### Concrete evaluations of the executor -/

/-- The 237 records served by `mock237`, after the defensive filter. -/
theorem mock237_filtered :
    (((List.range 3).map (pages mock237)).flatten).filter keepIssue =
      List.replicate 237 recA := by
  have h3 : List.range 3 = [0, 1, 2] := rfl
  have h0 : pages mock237 0 = List.replicate 100 recA := rfl
  have h1 : pages mock237 1 = List.replicate 100 recA := rfl
  have h2 : pages mock237 2 = List.replicate 37 recA := rfl
  have hkeep : keepIssue recA = true := by decide
  rw [h3]
  simp only [List.map_cons, List.map_nil, h0, h1, h2, List.flatten_cons,
    List.flatten_nil, List.append_nil, List.filter_append, List.filter_replicate,
    hkeep, if_pos]
  rw [← List.replicate_add, ← List.replicate_add]

/-- Full evaluation of the executor against `mock237`: three requests, all
237 records retrieved, total 237. -/
theorem execute_mock237 :
    execute_jql (okSearch mock237) "project = \"CCM\"" (some "project_overview") =
      (⟨List.replicate 237 recA, 237, 237, false, none⟩,
       [(100, 0), (100, 100), (100, 200)]) := by
  rw [execute_full_eval mock237 "project = \"CCM\"" (some "project_overview") 3
    (by decide) (by omega)
    (by intro i hi
        have h2 : i = 0 ∨ i = 1 := by omega
        rcases h2 with rfl | rfl <;> decide)
    (by decide)]
  rw [mock237_filtered]
  have htot : (mock237 100 0).total = 237 := rfl
  rw [htot, if_neg (by omega : ¬ (237 = 0)), List.length_replicate]
  rfl

/-- Full evaluation of the executor against `mockZero`: the declared total 0
is falsy, so the Python `or` reports the retrieved count 1 instead. -/
theorem execute_mockZero :
    execute_jql (okSearch mockZero) "project = \"CCM\"" (some "project_overview") =
      (⟨[recA], 1, 1, false, none⟩, [(100, 0)]) := by
  rw [execute_full_eval mockZero "project = \"CCM\"" (some "project_overview") 1
    (by decide) (by omega)
    (by intro i hi; exact absurd hi (by omega))
    (by decide)]
  decide

/-- Full evaluation of the executor against `goodSearch`: one request, both
records retrieved, total 2. -/
theorem execute_goodSearch (jql : String) (queryIntent : Option String)
    (hmode : isCountOnlyQuery jql queryIntent = false) :
    execute_jql (okSearch goodSearch) jql queryIntent =
      (⟨[recA, recA], 2, 2, false, none⟩, [(100, 0)]) := by
  rw [execute_full_eval goodSearch jql queryIntent 1 hmode (by omega)
    (by intro i hi; exact absurd hi (by omega))
    (by decide)]
  decide

/-! ### Claim C1 -/

/-- C1, counterexample to the reported-total clause: the claim says the
result's `reportedTotal` is taken from the first page's server-declared
total, but against a remote whose first page declares total 0 while
returning one record, `_execute_jql` reports `total_count = 1` (the Python
`total_count_from_api or len(filtered_results)` replaces the falsy 0), not
the declared 0. -/
theorem c1_reported_total_counterexample :
    (execute_jql (okSearch mockZero) "project = \"CCM\""
        (some "project_overview")).1.total_count = 1 ∧
    (mockZero 100 0).total = 0 := by
  constructor
  · rw [execute_mockZero]
  · rfl

/-- C1 (amended): in full-fetch mode `_execute_jql` requests pages of fixed
size 100 at offsets 0, 100, 200, ..., stops exactly when a returned page is
empty, or has fewer than 100 records, or the offset plus records received
has reached the first-page reported total (the negation of `continuesAt`),
accumulates exactly the served pages (after the defensive filter) with
`retrieved_count` their number, and reports the first page's server-declared
total as `total_count` EXCEPT that a declared total of 0 is replaced by the
retained record count; for a remote returning pages of 100, 100 and 37
records with first-page total 237, exactly 3 page requests are issued and
`retrieved_count = 237`. -/
theorem c1_full_fetch_pagination_amended :
    (∀ (search : SearchFn) (jql : String) (queryIntent : Option String),
        isCountOnlyQuery jql queryIntent = false →
        ∃ k, 1 ≤ k ∧
          (execute_jql (okSearch search) jql queryIntent).2 =
            (List.range k).map (fun i => (100, 100 * i)) ∧
          (∀ i, i + 1 < k → continuesAt search (search 100 0).total i) ∧
          ¬ continuesAt search (search 100 0).total (k - 1) ∧
          (execute_jql (okSearch search) jql queryIntent).1.results =
            (((List.range k).map (pages search)).flatten).filter keepIssue ∧
          (execute_jql (okSearch search) jql queryIntent).1.retrieved_count =
            (execute_jql (okSearch search) jql queryIntent).1.results.length ∧
          (execute_jql (okSearch search) jql queryIntent).1.total_count =
            (if (search 100 0).total = 0
             then (execute_jql (okSearch search) jql queryIntent).1.results.length
             else (search 100 0).total)) ∧
    (execute_jql (okSearch mock237) "project = \"CCM\""
        (some "project_overview")).2 = [(100, 0), (100, 100), (100, 200)] ∧
    (execute_jql (okSearch mock237) "project = \"CCM\""
        (some "project_overview")).1.retrieved_count = 237 ∧
    (execute_jql (okSearch mock237) "project = \"CCM\""
        (some "project_overview")).1.total_count = 237 := by
  refine ⟨?_, ?_, ?_, ?_⟩
  · intro search jql queryIntent hmode
    obtain ⟨k, hk, hcont, hstop, heq⟩ :=
      execute_full_spec search jql queryIntent hmode
    exact ⟨k, hk, by rw [heq], hcont, hstop, by rw [heq], by rw [heq],
      by rw [heq]⟩
  · rw [execute_mock237]
  · rw [execute_mock237]
  · rw [execute_mock237]

/-- C1, witness: the amended pagination characterization instantiated on a
concrete remote and query. -/
theorem c1_full_fetch_pagination_amended_witness :
    ∃ k, 1 ≤ k ∧
      (execute_jql (okSearch goodSearch) "project = \"TI\"" none).2 =
        (List.range k).map (fun i => (100, 100 * i)) ∧
      (∀ i, i + 1 < k → continuesAt goodSearch (goodSearch 100 0).total i) ∧
      ¬ continuesAt goodSearch (goodSearch 100 0).total (k - 1) ∧
      (execute_jql (okSearch goodSearch) "project = \"TI\"" none).1.results =
        (((List.range k).map (pages goodSearch)).flatten).filter keepIssue ∧
      (execute_jql (okSearch goodSearch) "project = \"TI\"" none).1.retrieved_count =
        (execute_jql (okSearch goodSearch) "project = \"TI\"" none).1.results.length ∧
      (execute_jql (okSearch goodSearch) "project = \"TI\"" none).1.total_count =
        (if (goodSearch 100 0).total = 0
         then (execute_jql (okSearch goodSearch) "project = \"TI\"" none).1.results.length
         else (goodSearch 100 0).total) :=
  c1_full_fetch_pagination_amended.1 goodSearch "project = \"TI\"" none (by decide)

/-! ### Claim C2 -/

/-- C2: `_execute_jql` runs in count-only mode exactly when the intent is
`count_items`, `story_count` or `issue_count`, or the lower-cased query text
contains `"count"` or `"group by"`; in count-only mode it issues exactly one
request asking for zero records and returns empty records, zero retrieved
count, the count-only flag, and the server-declared total; outside
count-only mode every issued request asks for 100 records (and at least one
is issued), so the two modes are observably distinct. -/
theorem c2_count_only_mode :
    (∀ (search : SearchFn) (jql : String) (queryIntent : Option String),
        isCountOnlyQuery jql queryIntent = true →
        execute_jql (okSearch search) jql queryIntent =
          (⟨[], (search 0 0).total, 0, true, none⟩, [(0, 0)])) ∧
    (∀ (search : SearchFn) (jql : String) (queryIntent : Option String),
        isCountOnlyQuery jql queryIntent = false →
        (execute_jql (okSearch search) jql queryIntent).2 ≠ [] ∧
        ∀ r ∈ (execute_jql (okSearch search) jql queryIntent).2, r.1 = 100) ∧
    (∀ (jql : String) (queryIntent : Option String),
        isCountOnlyQuery jql queryIntent =
          (queryIntent = some "count_items" || queryIntent = some "story_count" ||
           queryIntent = some "issue_count" || containsSub (lowerStr jql) "count" ||
           containsSub (lowerStr jql) "group by")) := by
  refine ⟨?_, ?_, fun jql queryIntent => rfl⟩
  · intro search jql queryIntent hmode
    exact execute_count_only_eval search jql queryIntent hmode
  · intro search jql queryIntent hmode
    obtain ⟨k, hk, hcont, hstop, heq⟩ :=
      execute_full_spec search jql queryIntent hmode
    rw [heq]
    constructor
    · simp
      omega
    · intro r hr
      simp only [List.mem_map] at hr
      obtain ⟨i, _, hri⟩ := hr
      rw [← hri]

/-- C2, witness: a count-bearing query against a concrete remote issues the
single zero-record request and reports the declared total 2. -/
theorem c2_count_only_mode_witness :
    execute_jql (okSearch goodSearch) "count of stories" none =
      (⟨[], 2, 0, true, none⟩, [(0, 0)]) := by
  have h := c2_count_only_mode.1 goodSearch "count of stories" none (by decide)
  rw [h]
  rfl

/-! ### Claim C3 -/

/-- C3, counterexample: the claim says a transport failure is converted into
a zero-result FetchResult carrying a non-empty `error` string, but a
transport failure is absorbed inside `JiraClient.search` (which returns
`{"issues": [], "total": 0}` instead of raising), so `_execute_jql` returns
the zero-result dictionary with NO error entry (`error = none`). -/
theorem c3_transport_error_counterexample :
    (execute_jql (okSearch (jiraSearch failTransport)) "project = \"TI\"" none).1 =
      ⟨[], 0, 0, false, none⟩ ∧
    (execute_jql (okSearch (jiraSearch failTransport)) "project = \"TI\"" none).1.error =
      none := by
  have h := execute_full_eval (jiraSearch failTransport) "project = \"TI\"" none 1
    (by decide) (by omega) (by intro i hi; exact absurd hi (by omega)) (by decide)
  rw [h]
  exact ⟨by decide, by decide⟩

/-- C3 (amended): a transport or parse failure of the remote search call is
never propagated as an exception out of `_execute_jql` and yields a
zero-result FetchResult (`records = []`, `reportedTotal = 0`,
`retrievedCount = 0`); however, because `JiraClient.search` absorbs the
failure and returns an empty page, the FetchResult carries NO error string;
only a search call that raises directly into `_execute_jql` is converted by
its `try/except` into the zero-result FetchResult carrying the exception
message. -/
theorem c3_transport_error_amended :
    (∀ (transport : Transport) (jql : String) (queryIntent : Option String),
        (∀ m s, ∃ e, transport m s = .error e) →
        (execute_jql (okSearch (jiraSearch transport)) jql queryIntent).1.results = [] ∧
        (execute_jql (okSearch (jiraSearch transport)) jql queryIntent).1.total_count = 0 ∧
        (execute_jql (okSearch (jiraSearch transport)) jql queryIntent).1.retrieved_count = 0 ∧
        (execute_jql (okSearch (jiraSearch transport)) jql queryIntent).1.error = none) ∧
    (∀ (e jql : String) (queryIntent : Option String),
        (execute_jql (fun _ _ => Except.error e) jql queryIntent).1 =
          ⟨[], 0, 0, false, some e⟩) := by
  constructor
  · intro transport jql queryIntent hfail
    exact execute_jql_transport_down transport jql queryIntent hfail
  · intro e jql queryIntent
    exact execute_jql_raising e jql queryIntent

/-- C3, witness: the amended statement instantiated on a concrete failing
transport and on a concrete raising search. -/
theorem c3_transport_error_amended_witness :
    ((execute_jql (okSearch (jiraSearch failTransport)) "assignee = \"Bob\"" none).1.results = [] ∧
     (execute_jql (okSearch (jiraSearch failTransport)) "assignee = \"Bob\"" none).1.total_count = 0 ∧
     (execute_jql (okSearch (jiraSearch failTransport)) "assignee = \"Bob\"" none).1.retrieved_count = 0 ∧
     (execute_jql (okSearch (jiraSearch failTransport)) "assignee = \"Bob\"" none).1.error = none) ∧
    (execute_jql (fun _ _ => Except.error "boom") "assignee = \"Bob\"" none).1 =
      ⟨[], 0, 0, false, some "boom"⟩ :=
  ⟨c3_transport_error_amended.1 failTransport "assignee = \"Bob\"" none
      (fun _ _ => ⟨"connection refused", rfl⟩),
   c3_transport_error_amended.2 "boom" "assignee = \"Bob\"" none⟩

/-! ### Claim C4 -/

/-- C4, counterexample: the claim says the matched ticket key is normalized
to uppercase, so an utterance containing `ab-1` should yield
`issue = "AB-1"`; the fallback emits `re.search(...).group(1)` verbatim and
produces `issue = "ab-1"`. -/
theorem c4_issue_key_case_counterexample :
    (analyze_query_fallback "tell me about ab-1" []).jql = "issue = \"ab-1\"" ∧
    (analyze_query_fallback "tell me about ab-1" []).jql ≠ "issue = \"AB-1\"" := by
  exact ⟨by decide, by decide⟩

/-- C4 (amended): for every utterance in which the ticket-key pattern (two or
more letters, a hyphen, digits, case-insensitively, between word
boundaries) matches, the deterministic fallback emits exactly the single
query `issue = "<key>"` with the key EXACTLY AS MATCHED (original case
preserved, no uppercase normalization), intent `issue_details` and response
type `list`; an utterance containing `ab-1` yields `issue = "ab-1"`, which
contains no ORDER BY clause. -/
theorem c4_issue_key_fallback_amended :
    (∀ (q : String) (projectKeys : List String) (key : String),
        findIssueKey q = some key →
        analyze_query_fallback q projectKeys =
          ⟨"issue_details", "issue = \"" ++ key ++ "\"", "list"⟩) ∧
    findIssueKey "tell me about ab-1" = some "ab-1" ∧
    analyze_query_fallback "tell me about ab-1" [] =
      ⟨"issue_details", "issue = \"ab-1\"", "list"⟩ ∧
    containsSub (analyze_query_fallback "tell me about ab-1" []).jql "ORDER BY" =
      false := by
  refine ⟨?_, by decide, by decide, by decide⟩
  intro q projectKeys key h
  unfold analyze_query_fallback
  rw [h]

/-- C4, witness: the amended emission rule instantiated on an utterance
containing `CCM-283`. -/
theorem c4_issue_key_fallback_amended_witness :
    analyze_query_fallback "what is the status of CCM-283" [] =
      ⟨"issue_details", "issue = \"" ++ "CCM-283" ++ "\"", "list"⟩ :=
  c4_issue_key_fallback_amended.1 "what is the status of CCM-283" [] "CCM-283"
    (by decide)

/-! ### Claim C5 -/

/-- C5, counterexample: the claim says an utterance containing a priority
document keyword routes to DOCUMENTS whenever the document collaborator is
configured, but `process_query` checks the OpenAI client first (line 72):
with the NLU client unconfigured and the Confluence client configured, a
priority-keyword utterance still takes the deterministic Jira fallback and
never reaches the document-routing rules. -/
theorem c5_priority_routing_counterexample :
    hasConfluencePriority "check the insurance wiki" = true ∧
    process_query_path false true "check the insurance wiki" =
      ProcessPath.fallback_no_client ∧
    process_query_path false true "check the insurance wiki" ≠
      ProcessPath.confluence_first := by
  exact ⟨by decide, by decide, by decide⟩

/-- C5 (amended): for every utterance containing a priority document keyword,
routing targets the Confluence-first path whenever BOTH the NLU client and
the document collaborator are configured (regardless of co-occurring
tracker keywords); when the document collaborator is unconfigured, the
Confluence-first path is never taken, regardless of rule outcome. -/
theorem c5_priority_routing_amended :
    (∀ q : String, hasConfluencePriority q = true →
        process_query_path true true q = ProcessPath.confluence_first) ∧
    (∀ (q : String) (clientConfigured : Bool),
        process_query_path clientConfigured false q ≠
          ProcessPath.confluence_first) := by
  constructor
  · intro q hq
    unfold hasConfluencePriority at hq
    have hs : should_search_confluence_first q = true := by
      unfold should_search_confluence_first
      simp [hq]
    simp [process_query_path, hs]
  · intro q clientConfigured
    cases clientConfigured <;> simp [process_query_path]

/-- C5, witness: the amended routing rule instantiated on a concrete
priority-keyword utterance that also contains tracker keywords. -/
theorem c5_priority_routing_amended_witness :
    process_query_path true true "bug status in the insurance wiki" =
      ProcessPath.confluence_first ∧
    process_query_path true false "bug status in the insurance wiki" ≠
      ProcessPath.confluence_first :=
  ⟨c5_priority_routing_amended.1 "bug status in the insurance wiki" (by decide),
   c5_priority_routing_amended.2 "bug status in the insurance wiki" true⟩

/-! ### Claim C10 -/

/-- C10: if the NLU client is unconfigured (no or placeholder API key),
`process_query` takes the deterministic fallback path for every utterance
and never takes the Confluence-first path, even when the document
collaborator is configured and the utterance contains priority document
keywords; the document-routing rules decide the path exactly when the NLU
client is configured. -/
theorem c10_no_client_fallback :
    (∀ (q : String) (confluenceConfigured : Bool),
        process_query_path false confluenceConfigured q =
          ProcessPath.fallback_no_client) ∧
    (∀ (q : String) (confluenceConfigured : Bool),
        process_query_path false confluenceConfigured q ≠
          ProcessPath.confluence_first) ∧
    (∀ q : String,
        process_query_path true true q = ProcessPath.confluence_first ↔
          should_search_confluence_first q = true) := by
  refine ⟨fun q c => rfl, fun q c => by simp [process_query_path], fun q => ?_⟩
  by_cases hs : should_search_confluence_first q = true
  · simp [process_query_path, hs]
  · simp only [Bool.not_eq_true] at hs
    simp [process_query_path, hs]

/-- C10, witness: a priority-keyword utterance with the document collaborator
configured still takes the fallback path when the NLU client is missing,
and takes the Confluence-first path once the NLU client is configured. -/
theorem c10_no_client_fallback_witness :
    process_query_path false true "find the insurance eligibility wiki page" =
      ProcessPath.fallback_no_client ∧
    process_query_path true true "find the insurance eligibility wiki page" =
      ProcessPath.confluence_first :=
  ⟨c10_no_client_fallback.1 "find the insurance eligibility wiki page" true,
   (c10_no_client_fallback.2.2 "find the insurance eligibility wiki page").mpr
     (by decide)⟩

/-! ### Aggregation lemmas -/

/-- `String.append` concatenates the underlying character lists. -/
theorem strData_append (a b : String) : (a ++ b).data = a.data ++ b.data := rfl

/-- The truncated-dataset headline is never equal to the complete-dataset
headline: their first characters differ. -/
theorem truncatedHeader_ne_completeHeader (r t t' : Nat) :
    truncatedHeader r t ≠ completeHeader t' := by
  intro h
  have hd := congrArg String.data h
  unfold truncatedHeader completeHeader at hd
  have hS : "Showing segregations for ".data =
      'S' :: "howing segregations for ".data := rfl
  have hF : "Found ".data = 'F' :: "ound ".data := rfl
  simp only [strData_append, hS, hF, List.cons_append] at hd
  injection hd with h1 h2
  exact absurd h1 (by decide)

/-- One bump of the per-name counter: the bumped name gains one, every other
name is untouched. -/
theorem lookupCount_bump (m : List (String × Nat)) (a k : String) :
    lookupCount (bumpCount m a) k =
      lookupCount m k + (if a = k then 1 else 0) := by
  induction m with
  | nil =>
    simp only [bumpCount, lookupCount]
    by_cases h : a = k
    · subst h; simp
    · simp [h]
  | cons hd tl ih =>
    obtain ⟨q, v⟩ := hd
    by_cases h1 : q = a
    · subst h1
      simp only [bumpCount, if_pos rfl]
      by_cases h2 : q = k
      · subst h2
        simp [lookupCount]
      · simp [lookupCount, h2]
    · simp only [bumpCount, if_neg h1]
      by_cases h2 : q = k
      · subst h2
        simp only [lookupCount, if_pos rfl]
        have h4 : ¬ a = q := fun h => h1 h.symm
        simp [h4]
      · simp only [lookupCount, if_neg h2]
        exact ih

/-- The assignee breakdown is a faithful counter: for every name, the stored
count equals the number of records whose extracted assignee is that name. -/
theorem lookupCount_byAssignee (results : List Issue) (name : String) :
    lookupCount (byAssignee results) name =
      (results.filter (fun it => assigneeOf it == name)).length := by
  suffices h : ∀ m, lookupCount
      (results.foldl (fun m it => bumpCount m (assigneeOf it)) m) name =
      lookupCount m name +
        (results.filter (fun it => assigneeOf it == name)).length by
    simpa [byAssignee, lookupCount] using h []
  induction results with
  | nil => intro m; simp
  | cons hd tl ih =>
    intro m
    simp only [List.foldl_cons, List.filter_cons]
    rw [ih (bumpCount m (assigneeOf hd)), lookupCount_bump]
    by_cases hh : assigneeOf hd = name
    · simp only [hh, beq_self_eq_true, if_pos, List.length_cons]
      omega
    · have hb : (assigneeOf hd == name) = false := by
        simp [hh]
      simp only [hb, Bool.false_eq_true, if_false, if_neg hh]
      omega

/-! ### Claim C6 -/

/-- C6: `_create_detailed_analysis` computes `by_assignee` so that each
assignee display name maps to the number of records assigned to it, a
record with no assignee object is counted under `Unassigned`, and the
count-reporting headline declares the dataset complete exactly when the
declared total equals the retrieved count, otherwise stating that only
`retrievedCount` of `declaredTotal` items were analyzed; on Alice/Alice/Bob
the breakdown is `{Alice: 2, Bob: 1}`, declaredTotal 3 with retrieved 3 is
reported complete, and declaredTotal 10 with retrieved 3 is reported
truncated. -/
theorem c6_assignee_breakdown :
    (∀ (results : List Issue) (name : String),
        lookupCount (byAssignee results) name =
          (results.filter (fun it => assigneeOf it == name)).length) ∧
    (∀ (n : Nat) (tc rc : Option Nat),
        countHeader n tc rc = completeHeader (tc.getD n) ↔
          tc.getD n = rc.getD n) ∧
    assigneeOf issueNoAssignee = "Unassigned" ∧
    byAssignee [issueAlice1, issueAlice2, issueBob] = [("Alice", 2), ("Bob", 1)] ∧
    countHeader 3 (some 3) (some 3) = completeHeader 3 ∧
    countHeader 3 (some 10) (some 3) = truncatedHeader 3 10 := by
  refine ⟨lookupCount_byAssignee, ?_, by decide, by decide, by decide, by decide⟩
  intro n tc rc
  unfold countHeader
  by_cases h : tc.getD n = rc.getD n
  · simp [h]
  · rw [if_neg h]
    constructor
    · intro heq
      exact absurd heq (truncatedHeader_ne_completeHeader _ _ _)
    · intro h'
      exact absurd h' h

/-- C6, witness: the breakdown counter and the completeness headline rule
instantiated on the Alice/Alice/Bob records and on declaredTotal 10 with
retrieved 3. -/
theorem c6_assignee_breakdown_witness :
    lookupCount (byAssignee [issueAlice1, issueAlice2, issueBob]) "Alice" =
      ([issueAlice1, issueAlice2, issueBob].filter
        (fun it => assigneeOf it == "Alice")).length ∧
    ¬ (countHeader 3 (some 10) (some 3) = completeHeader 10) :=
  ⟨c6_assignee_breakdown.1 [issueAlice1, issueAlice2, issueBob] "Alice",
   fun h => by
     have := (c6_assignee_breakdown.2.1 3 (some 10) (some 3)).mp (by simpa using h)
     simp at this⟩

/-! ### Context-buffer lemmas -/

/-- Folding `add_context` from an empty buffer keeps exactly the last 10
turns, in order. -/
theorem foldl_add_context (ts : List ConversationTurn) :
    List.foldl add_context [] ts = ts.drop (ts.length - 10) := by
  induction ts using List.reverseRecOn with
  | nil => rfl
  | append_singleton ts t ih =>
    rw [List.foldl_append, List.foldl_cons, List.foldl_nil, ih]
    rcases le_or_lt ts.length 9 with h9 | h10
    · have h0 : ts.length - 10 = 0 := by omega
      have h0' : (ts ++ [t]).length - 10 = 0 := by
        rw [List.length_append]
        simp
        omega
      rw [h0, h0', List.drop_zero, List.drop_zero]
      unfold add_context
      rw [if_neg (by rw [List.length_append]; simp; omega)]
    · unfold add_context
      have hlen : (ts.drop (ts.length - 10)).length = 10 := by
        rw [List.length_drop]; omega
      rw [if_pos (by rw [List.length_append, hlen]; simp)]
      rw [List.drop_append_eq_append_drop, List.drop_append_eq_append_drop,
        List.drop_drop]
      have e2 : (ts ++ [t]).length - 10 = ts.length - 10 + 1 := by
        simp [List.length_append]
        omega
      have e4 : ts.length - 10 + 1 - ts.length =
          1 - (List.drop (ts.length - 10) ts).length := by
        rw [List.length_drop]
        omega
      rw [e2, e4]

/-! ### Claim C9 -/

/-- C9: the conversation context never exceeds 10 turns; `add_context`
appends the new turn and, exactly when the length would exceed 10, evicts
the single oldest entry (strict FIFO); starting from an empty buffer the
fold of any turn sequence keeps exactly the last 10 turns in order, so
after 11 appends the buffer holds turns 2..11 and the last 3 turns read
back for continuity are turns 9, 10, 11 in chronological order. -/
theorem c9_context_fifo :
    (∀ (ctx : List ConversationTurn) (t : ConversationTurn),
        ctx.length ≤ 10 → (add_context ctx t).length ≤ 10) ∧
    (∀ (ctx : List ConversationTurn) (t : ConversationTurn),
        ctx.length = 10 → add_context ctx t = ctx.drop 1 ++ [t]) ∧
    (∀ ts : List ConversationTurn,
        List.foldl add_context [] ts = ts.drop (ts.length - 10)) ∧
    (∀ ts : List ConversationTurn, ts.length = 11 →
        List.foldl add_context [] ts = ts.drop 1 ∧
        recentTurns 3 (List.foldl add_context [] ts) = ts.drop 8) := by
  refine ⟨?_, ?_, foldl_add_context, ?_⟩
  · intro ctx t hle
    unfold add_context
    by_cases hc : 10 < (ctx ++ [t]).length
    · rw [if_pos hc, List.length_drop, List.length_append]
      simp
      omega
    · rw [if_neg hc]
      rw [List.length_append] at hc ⊢
      simp at hc ⊢
      omega
  · intro ctx t h10
    unfold add_context
    rw [if_pos (by rw [List.length_append, h10]; simp)]
    rw [List.drop_append_eq_append_drop]
    rw [h10]
    rfl
  · intro ts h11
    rw [foldl_add_context, h11]
    refine ⟨rfl, ?_⟩
    unfold recentTurns
    rw [List.length_drop, h11, List.drop_drop]

/-- C9, witness: eleven concrete turns folded into an empty buffer leave
turns 2..11, and the last three read back are turns 9, 10, 11. -/
theorem c9_context_fifo_witness :
    List.foldl add_context []
        ((List.range 11).map fun i => (⟨toString i, "", 0, ""⟩ : ConversationTurn)) =
      ((List.range 11).map fun i => (⟨toString i, "", 0, ""⟩ : ConversationTurn)).drop 1 ∧
    recentTurns 3 (List.foldl add_context []
        ((List.range 11).map fun i => (⟨toString i, "", 0, ""⟩ : ConversationTurn))) =
      ((List.range 11).map fun i => (⟨toString i, "", 0, ""⟩ : ConversationTurn)).drop 8 :=
  c9_context_fifo.2.2.2
    ((List.range 11).map fun i => (⟨toString i, "", 0, ""⟩ : ConversationTurn))
    (by simp)

/-! ### Comparison-sort lemmas -/

/-- Inserting into the descending-by-count order yields a permutation of the
cons. -/
theorem insertByCountDesc_perm (x : EntityCount) (l : List EntityCount) :
    (insertByCountDesc x l).Perm (x :: l) := by
  induction l with
  | nil => exact List.Perm.refl _
  | cons y ys ih =>
    unfold insertByCountDesc
    by_cases h : y.count ≤ x.count
    · rw [if_pos h]
    · rw [if_neg h]
      exact (ih.cons y).trans (List.Perm.swap x y ys)

/-- The stable descending sort permutes its input. -/
theorem sortByCountDesc_perm (l : List EntityCount) :
    (sortByCountDesc l).Perm l := by
  induction l with
  | nil => exact List.Perm.refl _
  | cons x xs ih =>
    have h : sortByCountDesc (x :: xs) =
        insertByCountDesc x (sortByCountDesc xs) := rfl
    rw [h]
    exact (insertByCountDesc_perm x _).trans (ih.cons x)

/-- Inserting into a descending-by-count chain keeps it descending. -/
theorem insertByCountDesc_chain (x : EntityCount) (l : List EntityCount)
    (h : List.Chain' (fun a b => b.count ≤ a.count) l) :
    List.Chain' (fun a b => b.count ≤ a.count) (insertByCountDesc x l) := by
  induction l with
  | nil => simp [insertByCountDesc]
  | cons y ys ih =>
    unfold insertByCountDesc
    by_cases hc : y.count ≤ x.count
    · rw [if_pos hc]
      rw [List.chain'_cons']
      refine ⟨?_, h⟩
      intro b hb
      simp at hb
      subst hb
      exact hc
    · rw [if_neg hc]
      rw [List.chain'_cons'] at h ⊢
      obtain ⟨hy, hys⟩ := h
      refine ⟨?_, ih hys⟩
      intro b hb
      cases ys with
      | nil =>
        simp [insertByCountDesc] at hb
        subst hb
        omega
      | cons z zs =>
        unfold insertByCountDesc at hb
        by_cases hz : z.count ≤ x.count
        · rw [if_pos hz] at hb
          simp at hb
          subst hb
          omega
        · rw [if_neg hz] at hb
          simp at hb
          subst hb
          exact hy z (by simp)

/-- The stable descending sort produces a descending-by-count chain. -/
theorem sortByCountDesc_chain (l : List EntityCount) :
    List.Chain' (fun a b => b.count ≤ a.count) (sortByCountDesc l) := by
  induction l with
  | nil => simp [sortByCountDesc]
  | cons x xs ih =>
    have h : sortByCountDesc (x :: xs) =
        insertByCountDesc x (sortByCountDesc xs) := rfl
    rw [h]
    exact insertByCountDesc_chain x _ ih

/-! ### Claim C7 -/

/-- C7: the fallback comparison summary ranks entities by count in descending
order (a permutation of the input batch, descending chain); with at least
two ranked entities it reports the top entity as winner with the numeric
margin over the runner-up when its count is strictly greater, and a tie
when the two leading counts are equal; percentage shares `count/total*100`
are emitted only when the combined total is non-zero (a zero total yields
no share entries and no division); for counts 12 and 7 the winner is the
first entity with margin 5 and the shares are 1200/19 and 700/19 percent,
which round to 63.2 and 36.8. -/
theorem c7_comparison_ranking :
    (∀ l : List EntityCount,
        ((fallback_comparison l).ranked).Perm l ∧
        List.Chain' (fun a b => b.count ≤ a.count) (fallback_comparison l).ranked) ∧
    (∀ (l : List EntityCount) (e1 e2 : EntityCount) (rest : List EntityCount),
        (fallback_comparison l).ranked = e1 :: e2 :: rest →
        (e2.count < e1.count →
          (fallback_comparison l).verdict =
            some (.winner e1.entity e1.count (e1.count - e2.count) e2.entity)) ∧
        (e1.count = e2.count →
          (fallback_comparison l).verdict =
            some (.tie e1.entity e2.entity e1.count))) ∧
    (∀ l : List EntityCount,
        (((fallback_comparison l).ranked.map EntityCount.count).sum = 0 →
          (fallback_comparison l).shares = []) ∧
        (0 < ((fallback_comparison l).ranked.map EntityCount.count).sum →
          (fallback_comparison l).shares =
            (fallback_comparison l).ranked.map fun ec =>
              (ec.entity,
               ((ec.count : ℚ) /
                 ((((fallback_comparison l).ranked.map EntityCount.count).sum : Nat) : ℚ)) * 100))) ∧
    (fallback_comparison [⟨"CCM", 12⟩, ⟨"CES", 7⟩] =
      ⟨[⟨"CCM", 12⟩, ⟨"CES", 7⟩],
       some (.winner "CCM" 12 5 "CES"),
       [("CCM", (1200 : ℚ) / 19), ("CES", (700 : ℚ) / 19)]⟩) ∧
    round ((10 : ℚ) * (1200 / 19)) = 632 ∧
    round ((10 : ℚ) * (700 / 19)) = 368 := by
  refine ⟨?_, ?_, ?_, ?_, by norm_num [round_eq], by norm_num [round_eq]⟩
  · intro l
    exact ⟨sortByCountDesc_perm l, sortByCountDesc_chain l⟩
  · intro l e1 e2 rest h
    have hv : (fallback_comparison l).verdict =
        comparisonVerdict ((fallback_comparison l).ranked) := rfl
    rw [hv, h]
    constructor
    · intro hlt
      simp only [comparisonVerdict]
      rw [if_pos hlt]
    · intro heq
      simp only [comparisonVerdict]
      rw [if_neg (by omega : ¬ e2.count < e1.count), if_pos heq]
  · intro l
    have hv : (fallback_comparison l).shares =
        comparisonShares ((fallback_comparison l).ranked) := rfl
    constructor
    · intro h0
      rw [hv]
      unfold comparisonShares
      rw [if_neg (by omega)]
    · intro hpos
      rw [hv]
      unfold comparisonShares
      rw [if_pos hpos]
  · unfold fallback_comparison
    have hs : sortByCountDesc [⟨"CCM", 12⟩, ⟨"CES", 7⟩] =
        [⟨"CCM", 12⟩, ⟨"CES", 7⟩] := by decide
    rw [hs]
    refine congrArg₂ (ComparisonSummary.mk _) ?_ ?_
    · decide
    · unfold comparisonShares
      norm_num

/-- C7, witness: the ranking and verdict rules instantiated on the concrete
12-versus-7 batch. -/
theorem c7_comparison_ranking_witness :
    ((fallback_comparison [⟨"CCM", 12⟩, ⟨"CES", 7⟩]).ranked).Perm
      [⟨"CCM", 12⟩, ⟨"CES", 7⟩] ∧
    (fallback_comparison [⟨"CCM", 12⟩, ⟨"CES", 7⟩]).verdict =
      some (.winner "CCM" 12 5 "CES") := by
  refine ⟨(c7_comparison_ranking.1 [⟨"CCM", 12⟩, ⟨"CES", 7⟩]).1, ?_⟩
  have h := (c7_comparison_ranking.2.1 [⟨"CCM", 12⟩, ⟨"CES", 7⟩]
    ⟨"CCM", 12⟩ ⟨"CES", 7⟩ [] (by decide)).1 (by decide)
  simpa using h

/-! ### Batch lemmas -/

/-- Evaluation of the two-entity batch: the entity with the failing transport
contributes empty results, count 0 and no error entry; the other entity's
entry is fully populated from its own query. -/
theorem comparison_batch_concrete :
    comparison_batch batchSearches batchJqls batchNames none =
      [⟨"Ashwin", "assignee = \"Ashwin\"", [], 0, 0, none⟩,
       ⟨"Saravanan", "assignee = \"Saravanan\"", [recA, recA], 2, 2, none⟩] := by
  have h0 : execute_jql (okSearch (jiraSearch failTransport))
      "assignee = \"Ashwin\"" none = (⟨[], 0, 0, false, none⟩, [(100, 0)]) := by
    rw [execute_full_eval (jiraSearch failTransport) "assignee = \"Ashwin\"" none 1
      (by decide) (by omega) (by intro i hi; exact absurd hi (by omega)) (by decide)]
    decide
  have h1 := execute_goodSearch "assignee = \"Saravanan\"" none (by decide)
  have henum : batchJqls.enum =
      [(0, "assignee = \"Ashwin\""), (1, "assignee = \"Saravanan\"")] := rfl
  simp only [comparison_batch, henum, List.map_cons, List.map_nil]
  have hs0 : batchSearches 0 = okSearch (jiraSearch failTransport) := rfl
  have hs1 : batchSearches 1 = okSearch goodSearch := rfl
  rw [hs0, hs1, h0, h1]
  rfl

/-! ### Claim C8 -/

/-- C8, counterexample: the claim says the failing entity's entry carries a
non-empty `error` string, but `_execute_jql` absorbs the transport failure
(returning a zero-result dictionary without raising), so the success branch
of the batch loop runs and stores NO error entry: in the concrete
two-entity batch the failed entity's entry is
`{results: [], count: 0, error: none}`. -/
theorem c8_batch_error_counterexample :
    comparison_batch batchSearches batchJqls batchNames none =
      [⟨"Ashwin", "assignee = \"Ashwin\"", [], 0, 0, none⟩,
       ⟨"Saravanan", "assignee = \"Saravanan\"", [recA, recA], 2, 2, none⟩] ∧
    (comparison_batch batchSearches batchJqls batchNames none).map
        EntityEntry.error = [none, none] := by
  refine ⟨comparison_batch_concrete, ?_⟩
  rw [comparison_batch_concrete]
  rfl

/-- C8 (amended): in a multi-entity comparison one entity's query failing
never aborts the others: the batch always holds one entry per query, each
entry depends only on its own entity's search function, an entity whose
transport is down contributes an entry with empty results, count 0 and NO
error entry (the fetch layer absorbs the failure, so the batch loop's
error-annotating `except` branch is unreachable), every other entity's
entry is fully populated from its own query, and the comparison aggregator
still consumes the heterogeneous batch (one ranked entry per entity). -/
theorem c8_batch_isolation_amended :
    (∀ (searches : Nat → SearchFnE) (jqls : List String)
        (entityNames : Nat → String) (queryIntent : Option String),
        (comparison_batch searches jqls entityNames queryIntent).length =
          jqls.length) ∧
    (∀ (searches searches' : Nat → SearchFnE) (jqls : List String)
        (entityNames : Nat → String) (queryIntent : Option String) (i : Nat),
        searches i = searches' i →
        (comparison_batch searches jqls entityNames queryIntent)[i]? =
          (comparison_batch searches' jqls entityNames queryIntent)[i]?) ∧
    (∀ (transport : Transport) (searches : Nat → SearchFnE) (jqls : List String)
        (entityNames : Nat → String) (queryIntent : Option String) (i : Nat)
        (jql : String),
        (∀ m s, ∃ e, transport m s = .error e) →
        searches i = okSearch (jiraSearch transport) →
        jqls[i]? = some jql →
        ∃ entry, (comparison_batch searches jqls entityNames queryIntent)[i]? =
            some entry ∧
          entry.entity = entityNames i ∧ entry.jql = jql ∧
          entry.results = [] ∧ entry.count = 0 ∧
          entry.retrieved_count = 0 ∧ entry.error = none) ∧
    (∀ l : List EntityCount,
        (fallback_comparison l).ranked.length = l.length) ∧
    comparison_batch batchSearches batchJqls batchNames none =
      [⟨"Ashwin", "assignee = \"Ashwin\"", [], 0, 0, none⟩,
       ⟨"Saravanan", "assignee = \"Saravanan\"", [recA, recA], 2, 2, none⟩] := by
  refine ⟨?_, ?_, ?_, ?_, comparison_batch_concrete⟩
  · intro searches jqls entityNames queryIntent
    simp [comparison_batch]
  · intro searches searches' jqls entityNames queryIntent i hsi
    simp only [comparison_batch, List.getElem?_map, List.getElem?_enum]
    cases jqls[i]? with
    | none => rfl
    | some jql => simp [hsi]
  · intro transport searches jqls entityNames queryIntent i jql hfail hsi hjql
    obtain ⟨hres, htot, hret, herr⟩ :=
      execute_jql_transport_down transport jql queryIntent hfail
    refine ⟨⟨entityNames i, jql,
      (execute_jql (searches i) jql queryIntent).1.results,
      (execute_jql (searches i) jql queryIntent).1.total_count,
      (execute_jql (searches i) jql queryIntent).1.retrieved_count, none⟩,
      ?_, rfl, rfl, ?_, ?_, ?_, rfl⟩
    · simp only [comparison_batch, List.getElem?_map, List.getElem?_enum, hjql]
      rfl
    · rw [hsi]; exact hres
    · rw [hsi]; exact htot
    · rw [hsi]; exact hret
  · intro l
    exact (sortByCountDesc_perm l).length_eq

/-- C8, witness: the batch-shape and failing-entity rules instantiated on the
concrete two-entity batch whose first transport is down. -/
theorem c8_batch_isolation_amended_witness :
    (comparison_batch batchSearches batchJqls batchNames none).length =
      batchJqls.length ∧
    ∃ entry, (comparison_batch batchSearches batchJqls batchNames none)[0]? =
        some entry ∧
      entry.entity = batchNames 0 ∧ entry.jql = "assignee = \"Ashwin\"" ∧
      entry.results = [] ∧ entry.count = 0 ∧ entry.retrieved_count = 0 ∧
      entry.error = none :=
  ⟨c8_batch_isolation_amended.1 batchSearches batchJqls batchNames none,
   c8_batch_isolation_amended.2.2.1 failTransport batchSearches batchJqls
     batchNames none 0 "assignee = \"Ashwin\""
     (fun _ _ => ⟨"connection refused", rfl⟩) rfl rfl⟩
